import Mathlib

/-!
Shallow embedding of the Cosa client (`homeassistant/components/cosa/api.py`
and `cosa_manager.py`).

Modelling conventions:
* JSON values are an inductive `JVal`; decoded top-level response bodies are
  JSON objects (`Dict`), matching the service protocol, while nested values
  are arbitrary `JVal`s.
* Every wire attempt (one HTTP round trip) consumes one `AttemptOutcome`
  from an oracle `net : Nat → AttemptOutcome` held in a `World`, and appends
  the request actually sent to a log.  `AttemptOutcome.exn` is an
  `aiohttp.ClientError` raised by the request itself; `.resp status none`
  is a response whose `json()` call raises a decode error; `.resp status
  (some d)` is a response with HTTP status `status` and decoded body `d`.
* Time is an integer number of minutes passed in as `now`; `datetime.now`
  inside one operation is the single value `now`.
* The `async`/`await` plumbing of the source (including the places where the
  source calls a coroutine without awaiting it) is collapsed: a call to an
  operation denotes that operation's result, per the spec's suspension
  model.  Python exceptions that the source can raise at the manager layer
  (`IndexError`, `KeyError`, `TypeError` from subscripting) are modelled
  explicitly with `Except PyErr`.
* Python `==` between a JSON value and an int or str literal is modelled by
  `pyEqInt` / `pyEqStr` (Python treats `True == 1` and `False == 0` as
  true, so `jbool` compares as its int value).
-/

namespace Cosa

inductive JVal where
  | jnull
  | jbool (b : Bool)
  | jnum (n : Int)
  | jstr (s : String)
  | jarr (xs : List JVal)
  | jobj (fs : List (String × JVal))

abbrev Dict := List (String × JVal)

/-- Python `v == n` for an int literal `n` (bools compare as 0/1). -/
def pyEqInt : JVal → Int → Bool
  | .jnum m, n => m == n
  | .jbool b, n => (if b then (1 : Int) else 0) == n
  | _, _ => false

/-- Python `v == s` for a str literal `s`. -/
def pyEqStr : JVal → String → Bool
  | .jstr t, s => t == s
  | _, _ => false

inductive PyErr where
  | indexError
  | keyError
  | typeError
deriving DecidableEq, Repr

/-- Python `v[0]`: first element of a list (IndexError when empty); first
character of a str; KeyError on a dict (JSON object keys are strings, so an
int key is absent); TypeError otherwise. -/
def pyIndex0 : JVal → Except PyErr JVal
  | .jarr [] => .error .indexError
  | .jarr (x :: _) => .ok x
  | .jstr s => if s.isEmpty then .error .indexError else .ok (.jstr (String.singleton s.front))
  | .jobj _ => .error .keyError
  | _ => .error .typeError

/-- Python `v[k]` for a str key `k`: dict lookup (KeyError when absent),
TypeError on non-dict values. -/
def pyGetStr (v : JVal) (k : String) : Except PyErr JVal :=
  match v with
  | .jobj fs =>
    match fs.lookup k with
    | some x => .ok x
    | none => .error .keyError
  | _ => .error .typeError

def escapeChar (c : Char) : String :=
  if c = '"' then "\\\"" else if c = '\\' then "\\\\" else String.singleton c

def escapeStr (s : String) : String :=
  String.join (s.toList.map escapeChar)

mutual

/-- `json.dumps` with Python's default separators. -/
def dumps : JVal → String
  | .jnull => "null"
  | .jbool true => "true"
  | .jbool false => "false"
  | .jnum n => toString n
  | .jstr s => "\"" ++ escapeStr s ++ "\""
  | .jarr xs => "[" ++ dumpsList xs ++ "]"
  | .jobj fs => "\x7b" ++ dumpsFields fs ++ "\x7d"

def dumpsList : List JVal → String
  | [] => ""
  | [x] => dumps x
  | x :: y :: xs => dumps x ++ ", " ++ dumpsList (y :: xs)

def dumpsFields : List (String × JVal) → String
  | [] => ""
  | [(k, v)] => "\"" ++ escapeStr k ++ "\": " ++ dumps v
  | (k, v) :: f :: fs => "\"" ++ escapeStr k ++ "\": " ++ dumps v ++ ", " ++ dumpsFields (f :: fs)

end

inductive Method where
  | get
  | post
deriving DecidableEq, Repr

/-- One wire request as sent: method, endpoint path, and for POST the
serialized body (headers, which only carry the constant content type and the
current token, are not recorded). -/
structure Request where
  method : Method
  endpoint : String
  body : Option String
deriving DecidableEq, Repr

/-- Outcome of one wire attempt. -/
inductive AttemptOutcome where
  | exn
  | resp (status : Nat) (body : Option Dict)

/-- The mutable fields of `Api`. -/
structure ApiState where
  authToken : Option JVal
  lastSuccessfulCall : Option Int

/-- API state plus the network: oracle of upcoming attempt outcomes, index
of the next attempt, and log of requests sent so far. -/
structure World where
  st : ApiState
  net : Nat → AttemptOutcome
  tick : Nat
  log : List Request

def setSt (w : World) (st : ApiState) : World :=
  { w with st := st }

def logReq (w : World) (r : Request) : World :=
  { w with log := w.log ++ [r] }

def takeOutcome (w : World) : AttemptOutcome × World :=
  (w.net w.tick, { w with tick := w.tick + 1 })

/-- The constructor credentials of `Api`. -/
structure Creds where
  username : String
  password : String

def LOGIN_TIMEOUT_DELTA : Int := 60

/-- Embeds `Api.__is_login_timed_out`. -/
def is_login_timed_out (now : Int) (st : ApiState) : Bool :=
  match st.lastSuccessfulCall with
  | none => true
  | some t => decide (now - t > LOGIN_TIMEOUT_DELTA)

/-- Embeds `Api.__has_auth`. -/
def has_auth (st : ApiState) : Bool :=
  st.authToken.isSome

/-- Embeds `Api.__async_get_response_if_success`.  `.error ()` is the
`json.JSONDecodeError` that `response.json()` raises on an undecodable body
(it propagates to the caller's `except` clause). -/
def async_get_response_if_success (now : Int) (status : Nat) (body : Option Dict)
    (st : ApiState) : Except Unit (Option Dict) × ApiState :=
  if status ≠ 200 then (.ok none, st)
  else
    match body with
    | none => (.error (), st)
    | some data =>
      match data.lookup "ok" with
      | some v =>
        if pyEqInt v 1 then (.ok (some data), { st with lastSuccessfulCall := some now })
        else (.ok none, st)
      | none => (.ok none, st)

/-- Embeds the `allowRetry=False` instance of `Api.__async_post_without_auth`
(the body of the recursive call): serialize the payload, make one wire
attempt, and on a transport or decode exception return `None` (no further
retry). -/
def async_post_attempt_once (now : Int) (endpoint : String) (payload : JVal)
    (w : World) : Option Dict × World :=
  let wire := dumps payload
  let w := logReq w ⟨.post, endpoint, some wire⟩
  let (outcome, w) := takeOutcome w
  match outcome with
  | .exn => (none, w)
  | .resp status body =>
    match async_get_response_if_success now status body w.st with
    | (.error _, st) => (none, setSt w st)
    | (.ok r, st) => (r, setSt w st)

/-- Embeds `Api.__async_post_without_auth`.  The source is recursive: on a
transport or decode exception with `allowRetry` it re-enters itself with
`allowRetry=False` and with `payload` bound to the already-serialized string
(so the retry serializes that string again).  The single recursive call is
unrolled here into `async_post_attempt_once`, which is that `False`
instance. -/
def async_post_without_auth (now : Int) (endpoint : String) (payload : JVal)
    (allowRetry : Bool) (w : World) : Option Dict × World :=
  let wire := dumps payload
  let w := logReq w ⟨.post, endpoint, some wire⟩
  let (outcome, w) := takeOutcome w
  match outcome with
  | .exn =>
    match allowRetry with
    | true => async_post_attempt_once now endpoint (.jstr wire) w
    | false => (none, w)
  | .resp status body =>
    match async_get_response_if_success now status body w.st with
    | (.error _, st) =>
      match allowRetry with
      | true => async_post_attempt_once now endpoint (.jstr wire) (setSt w st)
      | false => (none, setSt w st)
    | (.ok r, st) => (r, setSt w st)

/-- Embeds the `allowRetry=False` instance of `Api.__async_get_without_auth`. -/
def async_get_attempt_once (now : Int) (endpoint : String) (w : World) :
    Option Dict × World :=
  let w := logReq w ⟨.get, endpoint, none⟩
  let (outcome, w) := takeOutcome w
  match outcome with
  | .exn => (none, w)
  | .resp status body =>
    match async_get_response_if_success now status body w.st with
    | (.error _, st) => (none, setSt w st)
    | (.ok r, st) => (r, setSt w st)

/-- Embeds `Api.__async_get_without_auth`; the single recursive retry call
(`allowRetry=False`) is unrolled into `async_get_attempt_once`. -/
def async_get_without_auth (now : Int) (endpoint : String) (allowRetry : Bool)
    (w : World) : Option Dict × World :=
  let w := logReq w ⟨.get, endpoint, none⟩
  let (outcome, w) := takeOutcome w
  match outcome with
  | .exn =>
    match allowRetry with
    | true => async_get_attempt_once now endpoint w
    | false => (none, w)
  | .resp status body =>
    match async_get_response_if_success now status body w.st with
    | (.error _, st) =>
      match allowRetry with
      | true => async_get_attempt_once now endpoint (setSt w st)
      | false => (none, setSt w st)
    | (.ok r, st) => (r, setSt w st)

/-- Embeds `Api.__async_login`. -/
def async_login (c : Creds) (now : Int) (w : World) : Bool × World :=
  let payload : JVal := .jobj [("email", .jstr c.username), ("password", .jstr c.password)]
  let (data, w) := async_post_without_auth now "/api/users/login" payload true w
  match data with
  | some d =>
    match d.lookup "authToken" with
    | some tok => (true, setSt w { w.st with authToken := some tok })
    | none => (false, setSt w { w.st with authToken := none })
  | none => (false, setSt w { w.st with authToken := none })

/-- Embeds `Api.__async_post`: login is attempted only when no token is
held (`__has_auth`); the call is abandoned when that login fails. -/
def async_post (c : Creds) (now : Int) (endpoint : String) (payload : JVal)
    (allowRetry : Bool) (w : World) : Option Dict × World :=
  if has_auth w.st then async_post_without_auth now endpoint payload allowRetry w
  else
    let (ok, w) := async_login c now w
    match ok with
    | true => async_post_without_auth now endpoint payload allowRetry w
    | false => (none, w)

/-- Embeds `Api.__async_get`. -/
def async_get (c : Creds) (now : Int) (endpoint : String) (allowRetry : Bool)
    (w : World) : Option Dict × World :=
  if has_auth w.st then async_get_without_auth now endpoint allowRetry w
  else
    let (ok, w) := async_login c now w
    match ok with
    | true => async_get_without_auth now endpoint allowRetry w
    | false => (none, w)

/-- Embeds `Api.async_connection_status`. -/
def async_connection_status (c : Creds) (now : Int) (w : World) : Bool × World :=
  if is_login_timed_out now w.st then
    let (ok, w) := async_login c now w
    match ok with
    | true => (true, w)
    | false => (false, w)
  else (true, w)

/-- Embeds `Api.async_get_endpoints`. -/
def async_get_endpoints (c : Creds) (now : Int) (w : World) : Option JVal × World :=
  let (data, w) := async_get c now "/api/endpoints/getEndpoints" true w
  match data with
  | some d =>
    match d.lookup "endpoints" with
    | some eps => (some eps, w)
    | none => (none, w)
  | none => (none, w)

/-- Embeds `Api.async_get_endpoint`. -/
def async_get_endpoint (c : Creds) (now : Int) (endpointId : JVal) (w : World) :
    Option JVal × World :=
  let payload : JVal := .jobj [("endpoint", endpointId)]
  let (data, w) := async_post c now "/api/endpoints/getEndpoint" payload true w
  match data with
  | some d =>
    match d.lookup "endpoint" with
    | some e => (some e, w)
    | none => (none, w)
  | none => (none, w)

/-- Embeds `Api.async_set_target_temperatures`. -/
def async_set_target_temperatures (c : Creds) (now : Int) (endpointId : JVal)
    (homeTemp awayTemp sleepTemp customTemp : JVal) (w : World) : Bool × World :=
  let payload : JVal := .jobj
    [("endpoint", endpointId),
     ("targetTemperatures", .jobj
       [("home", homeTemp), ("away", awayTemp),
        ("sleep", sleepTemp), ("custom", customTemp)])]
  let (data, w) := async_post c now "/api/endpoints/setTargetTemperatures" payload true w
  match data with
  | some _ => (true, w)
  | none => (false, w)

/-- Embeds `Api.async_disable`. -/
def async_disable (c : Creds) (now : Int) (endpointId : JVal) (w : World) :
    Bool × World :=
  let payload : JVal := .jobj
    [("endpoint", endpointId), ("mode", .jstr "manual"), ("option", .jstr "frozen")]
  let (data, w) := async_post c now "/api/endpoints/setMode" payload true w
  match data with
  | some _ => (true, w)
  | none => (false, w)

/-- Embeds `Api.async_enable_schedule`. -/
def async_enable_schedule (c : Creds) (now : Int) (endpointId : JVal) (w : World) :
    Bool × World :=
  let payload : JVal := .jobj [("endpoint", endpointId), ("mode", .jstr "schedule")]
  let (data, w) := async_post c now "/api/endpoints/setMode" payload true w
  match data with
  | some _ => (true, w)
  | none => (false, w)

/-- Embeds `Api.async_enable_custom_mode`. -/
def async_enable_custom_mode (c : Creds) (now : Int) (endpointId : JVal) (w : World) :
    Bool × World :=
  let payload : JVal := .jobj
    [("endpoint", endpointId), ("mode", .jstr "manual"), ("option", .jstr "custom")]
  let (data, w) := async_post c now "/api/endpoints/setMode" payload true w
  match data with
  | some _ => (true, w)
  | none => (false, w)

/-! ### CosaManager (`cosa_manager.py`)

The manager's only mutable field is `__homeId`; it is threaded as
`MgrState`.  Python exceptions raised by subscripting (`endpoints[0]`,
`status["..."]`) surface as `Except.error`. -/

/-- The mutable field `CosaManager.__homeId` (initially `None`). -/
structure MgrState where
  homeId : Option JVal

/-- Embeds `CosaManager.getConnectionStatus`. -/
def getConnectionStatus (c : Creds) (now : Int) (ms : MgrState) (w : World) :
    Bool × MgrState × World :=
  let (b, w) := async_connection_status c now w
  (b, ms, w)

/-- Embeds `CosaManager.getHomeId`.  Two source quirks are kept as written:
the guard against an empty list is `endpoints == 0` (never true for a
Python list, so an empty list reaches `endpoints[0]` and raises
`IndexError`), and `self.__homeId` is read but never assigned. -/
def getHomeId (c : Creds) (now : Int) (ms : MgrState) (w : World) :
    Except PyErr (Option JVal) × MgrState × World :=
  match ms.homeId with
  | some h => (.ok (some h), ms, w)
  | none =>
    let (endpoints?, w) := async_get_endpoints c now w
    match endpoints? with
    | none => (.ok none, ms, w)
    | some endpoints =>
      if pyEqInt endpoints 0 then (.ok none, ms, w)
      else
        match pyIndex0 endpoints with
        | .error e => (.error e, ms, w)
        | .ok e0 =>
          match pyGetStr e0 "id" with
          | .error e => (.error e, ms, w)
          | .ok v => (.ok (some v), ms, w)

/-- Embeds `CosaManager.getCurrentStatus`. -/
def getCurrentStatus (c : Creds) (now : Int) (ms : MgrState) (w : World) :
    Except PyErr (Option JVal) × MgrState × World :=
  match getHomeId c now ms w with
  | (.error e, ms, w) => (.error e, ms, w)
  | (.ok none, ms, w) => (.ok none, ms, w)
  | (.ok (some homeId), ms, w) =>
    let (r, w) := async_get_endpoint c now homeId w
    (.ok r, ms, w)

/-- Embeds `CosaManager.setTemperature`. -/
def setTemperature (c : Creds) (now : Int) (targetTemp : Int) (ms : MgrState)
    (w : World) : Except PyErr Bool × MgrState × World :=
  match getHomeId c now ms w with
  | (.error e, ms, w) => (.error e, ms, w)
  | (.ok none, ms, w) => (.ok false, ms, w)
  | (.ok (some homeId), ms, w) =>
    let (currentStatus?, w) := async_get_endpoint c now homeId w
    match currentStatus? with
    | none => (.ok false, ms, w)
    | some currentStatus =>
      match pyGetStr currentStatus "homeTemperature" with
      | .error e => (.error e, ms, w)
      | .ok homeTemp =>
      match pyGetStr currentStatus "awayTemperature" with
      | .error e => (.error e, ms, w)
      | .ok awayTemp =>
      match pyGetStr currentStatus "sleepTemperature" with
      | .error e => (.error e, ms, w)
      | .ok sleepTemp =>
      match pyGetStr currentStatus "customTemperature" with
      | .error e => (.error e, ms, w)
      | .ok customTemp =>
      match pyGetStr currentStatus "mode" with
      | .error e => (.error e, ms, w)
      | .ok currentMode =>
      match pyGetStr currentStatus "option" with
      | .error e => (.error e, ms, w)
      | .ok currentOption =>
        if pyEqStr currentMode "manual" && pyEqStr currentOption "custom"
            && pyEqInt customTemp targetTemp then
          (.ok true, ms, w)
        else
          let (targetSetSuccess, w) := async_set_target_temperatures c now homeId
            homeTemp awayTemp sleepTemp (.jnum targetTemp) w
          match targetSetSuccess with
          | false => (.ok false, ms, w)
          | true =>
            if pyEqStr currentMode "manual" && pyEqStr currentOption "custom" then
              (.ok true, ms, w)
            else
              let (modeSetSuccess, w) := async_enable_custom_mode c now homeId w
              match modeSetSuccess with
              | false =>
                let (_, w) := async_set_target_temperatures c now homeId
                  homeTemp awayTemp sleepTemp customTemp w
                (.ok false, ms, w)
              | true => (.ok true, ms, w)

/-- Embeds `CosaManager.turnOff`. -/
def turnOff (c : Creds) (now : Int) (ms : MgrState) (w : World) :
    Except PyErr Bool × MgrState × World :=
  match getHomeId c now ms w with
  | (.error e, ms, w) => (.error e, ms, w)
  | (.ok none, ms, w) => (.ok false, ms, w)
  | (.ok (some homeId), ms, w) =>
    let (currentStatus?, w) := async_get_endpoint c now homeId w
    match currentStatus? with
    | none => (.ok false, ms, w)
    | some currentStatus =>
      match pyGetStr currentStatus "mode" with
      | .error e => (.error e, ms, w)
      | .ok currentMode =>
      match pyGetStr currentStatus "option" with
      | .error e => (.error e, ms, w)
      | .ok currentOption =>
        if pyEqStr currentMode "manual" && pyEqStr currentOption "frozen" then
          (.ok true, ms, w)
        else
          let (b, w) := async_disable c now homeId w
          (.ok b, ms, w)

/-- Embeds `CosaManager.enableSchedule`. -/
def enableSchedule (c : Creds) (now : Int) (ms : MgrState) (w : World) :
    Except PyErr Bool × MgrState × World :=
  match getHomeId c now ms w with
  | (.error e, ms, w) => (.error e, ms, w)
  | (.ok none, ms, w) => (.ok false, ms, w)
  | (.ok (some homeId), ms, w) =>
    let (currentStatus?, w) := async_get_endpoint c now homeId w
    match currentStatus? with
    | none => (.ok false, ms, w)
    | some currentStatus =>
      match pyGetStr currentStatus "mode" with
      | .error e => (.error e, ms, w)
      | .ok currentMode =>
        if pyEqStr currentMode "schedule" then
          (.ok true, ms, w)
        else
          let (b, w) := async_enable_schedule c now homeId w
          (.ok b, ms, w)

/-! ### Concrete fixtures shared by the verification theorems -/

def c0 : Creds := ⟨"u", "p"⟩

def ms0 : MgrState := ⟨none⟩

/-- A world with no token and no recorded successful call. -/
def freshWorld (net : Nat → AttemptOutcome) : World :=
  ⟨⟨none, none⟩, net, 0, []⟩

/-- A world already holding a token, with the given last-successful-call time. -/
def authedWorld (last : Option Int) (net : Nat → AttemptOutcome) : World :=
  ⟨⟨some (.jstr "T"), last⟩, net, 0, []⟩

/-- A 200 login response carrying a token. -/
def respLogin : AttemptOutcome :=
  .resp 200 (some [("ok", .jnum 1), ("authToken", .jstr "T")])

/-- A 200 `ok=1` response whose endpoint list is empty. -/
def respEmptyEndpoints : AttemptOutcome :=
  .resp 200 (some [("ok", .jnum 1), ("endpoints", .jarr [])])

/-- A 200 `ok=1` response listing one endpoint with id `home123`. -/
def respOneEndpoint : AttemptOutcome :=
  .resp 200 (some [("ok", .jnum 1), ("endpoints", .jarr [.jobj [("id", .jstr "home123")]])])

/-- A bare 200 `ok=1` response (a successful mutating call). -/
def respOkEmpty : AttemptOutcome :=
  .resp 200 (some [("ok", .jnum 1)])

/-- A clean 200 response with `ok=0` (a rejected call). -/
def respNotOk : AttemptOutcome :=
  .resp 200 (some [("ok", .jnum 0)])

/-- A 200 `ok=1` response whose `endpoint` field is the given device state. -/
def respDevice (cs : JVal) : AttemptOutcome :=
  .resp 200 (some [("ok", .jnum 1), ("endpoint", cs)])

def isLoginReq (r : Request) : Bool :=
  r.endpoint == "/api/users/login"

def setModePayload : JVal :=
  .jobj [("endpoint", .jstr "e1"), ("mode", .jstr "schedule")]

/-! ### Claims -/

/-- C1: the claim that no exception propagates out of any public operation
fails on the code.  With a successful login and a well-formed 200 `ok=1`
response whose `endpoints` list is empty, `getHomeId` raises `IndexError`:
the guard `endpoints == 0` is never true for a list, so the empty list
reaches `endpoints[0]`. -/
theorem C1_getHomeId_raises_on_empty_endpoints :
    (getHomeId c0 0 ms0
        (freshWorld fun n => if n = 0 then respLogin else respEmptyEndpoints)).1
      = .error .indexError := by
  rfl

/-- C3: the retry after a transport exception is not the identical request.
On an authenticated POST whose attempts all raise transport errors, exactly
two attempts are made to the same endpoint with no login step and the result
is `none` (as claimed), but the second attempt's body is the JSON
serialization of the first body taken as a string (the source re-binds
`payload = json.dumps(payload)` and the retry serializes that string again),
so the two bodies differ. -/
theorem C3_retry_body_not_identical :
    (async_post c0 0 "/api/endpoints/setMode" setModePayload true
        (authedWorld (some 0) fun _ => .exn)).1 = none ∧
    (async_post c0 0 "/api/endpoints/setMode" setModePayload true
        (authedWorld (some 0) fun _ => .exn)).2.log.map Request.endpoint
      = ["/api/endpoints/setMode", "/api/endpoints/setMode"] ∧
    (async_post c0 0 "/api/endpoints/setMode" setModePayload true
        (authedWorld (some 0) fun _ => .exn)).2.log.filter isLoginReq = [] ∧
    (async_post c0 0 "/api/endpoints/setMode" setModePayload true
        (authedWorld (some 0) fun _ => .exn)).2.log.map Request.body
      = [some (dumps setModePayload), some (dumps (.jstr (dumps setModePayload)))] ∧
    dumps setModePayload ≠ dumps (.jstr (dumps setModePayload)) := by
  exact ⟨rfl, rfl, rfl, rfl, by decide⟩

/-- C4: the endpoint id is never cached.  With the service listing one
endpoint `home123`, `getHomeId` returns the id but leaves `__homeId` at
`None` (the source never assigns it), so a second `getHomeId` call fetches
the endpoint list over the network again: two `getEndpoints` requests occur
across the two calls. -/
theorem C4_homeId_never_cached :
    (getHomeId c0 0 ms0
        (freshWorld fun n => if n = 0 then respLogin else respOneEndpoint)).1
      = .ok (some (.jstr "home123")) ∧
    (getHomeId c0 0 ms0
        (freshWorld fun n => if n = 0 then respLogin else respOneEndpoint)).2.1 = ms0 ∧
    ((getHomeId c0 0
        (getHomeId c0 0 ms0
          (freshWorld fun n => if n = 0 then respLogin else respOneEndpoint)).2.1
        (getHomeId c0 0 ms0
          (freshWorld fun n => if n = 0 then respLogin else respOneEndpoint)).2.2).2.2.log.filter
      (fun r => r.endpoint == "/api/endpoints/getEndpoints")).length = 2 := by
  exact ⟨rfl, rfl, rfl⟩

/-- Oracle delivering the listed outcomes in order, then transport errors. -/
def netOf (l : List AttemptOutcome) : Nat → AttemptOutcome :=
  fun n => l.getD n .exn

/-- C2: if the set-target-temperatures call succeeds and the subsequent
enable-custom-mode call fails, exactly one compensating
set-target-temperatures call with the original custom value (other three
temperatures unchanged) is issued, and setTemperature returns failure
regardless of that call's outcome: the final world is exactly the one
reached by the single rollback call, and the result is `false` with no
condition on the rollback outcome. -/
theorem C2_rollback (c : Creds) (now : Int) (tgt : Int) (ms ms1 : MgrState)
    (w w1 w2 w3 w4 : World) (hid cs hT aT sT cT m o : JVal)
    (hHome : getHomeId c now ms w = (.ok (some hid), ms1, w1))
    (hRead : async_get_endpoint c now hid w1 = (some cs, w2))
    (hfH : pyGetStr cs "homeTemperature" = .ok hT)
    (hfA : pyGetStr cs "awayTemperature" = .ok aT)
    (hfS : pyGetStr cs "sleepTemperature" = .ok sT)
    (hfC : pyGetStr cs "customTemperature" = .ok cT)
    (hfM : pyGetStr cs "mode" = .ok m)
    (hfO : pyGetStr cs "option" = .ok o)
    (hNot : (pyEqStr m "manual" && pyEqStr o "custom") = false)
    (hSet : async_set_target_temperatures c now hid hT aT sT (.jnum tgt) w2 = (true, w3))
    (hMode : async_enable_custom_mode c now hid w3 = (false, w4)) :
    setTemperature c now tgt ms w =
      (.ok false, ms1,
        (async_set_target_temperatures c now hid hT aT sT cT w4).2) := by
  have hNot1 : (pyEqStr m "manual" && (pyEqStr o "custom" && pyEqInt cT tgt)) = false := by
    cases h1 : pyEqStr m "manual" <;> cases h2 : pyEqStr o "custom" <;> simp_all
  rcases h4 : async_set_target_temperatures c now hid hT aT sT cT w4 with ⟨b, w5⟩
  simp [setTemperature, hHome, hRead, hfH, hfA, hfS, hfC, hfM, hfO, hNot1, hNot,
    hSet, hMode, h4]

/-- Device state fixture: schedule mode, temperatures 20/15/18/22. -/
def csSched : JVal := .jobj
  [("homeTemperature", .jnum 20), ("awayTemperature", .jnum 15),
   ("sleepTemperature", .jnum 18), ("customTemperature", .jnum 22),
   ("mode", .jstr "schedule"), ("option", .jstr "custom")]

def wC2 : World :=
  authedWorld (some 0) (netOf [respOneEndpoint, respDevice csSched, respOkEmpty, respNotOk])

def w1C2 : World := (getHomeId c0 0 ms0 wC2).2.2

def w2C2 : World := (async_get_endpoint c0 0 (.jstr "home123") w1C2).2

def w3C2 : World :=
  (async_set_target_temperatures c0 0 (.jstr "home123") (.jnum 20) (.jnum 15)
    (.jnum 18) (.jnum 25) w2C2).2

def w4C2 : World := (async_enable_custom_mode c0 0 (.jstr "home123") w3C2).2

/-- C2 witness: a concrete run (schedule mode, target 25, temperature write
accepted, mode write rejected, rollback hitting transport errors). -/
theorem C2_rollback_witness :
    setTemperature c0 0 25 ms0 wC2 =
      (.ok false, ms0,
        (async_set_target_temperatures c0 0 (.jstr "home123") (.jnum 20) (.jnum 15)
          (.jnum 18) (.jnum 22) w4C2).2) :=
  C2_rollback c0 0 25 ms0 ms0 wC2 w1C2 w2C2 w3C2 w4C2 (.jstr "home123") csSched
    (.jnum 20) (.jnum 15) (.jnum 18) (.jnum 22) (.jstr "schedule") (.jstr "custom")
    rfl rfl rfl rfl rfl rfl rfl rfl rfl rfl rfl

/-- C5: setTemperature is a no-op success when the freshly read state is
`manual`/`custom` with the custom temperature already equal to the target:
the result is `true` and the final world is exactly the post-read world
`w2`, so no mutating (or any further) network call is issued. -/
theorem C5_setTemperature_idempotent (c : Creds) (now : Int) (X : Int)
    (ms ms1 : MgrState) (w w1 w2 : World) (hid cs hT aT sT cT m o : JVal)
    (hHome : getHomeId c now ms w = (.ok (some hid), ms1, w1))
    (hRead : async_get_endpoint c now hid w1 = (some cs, w2))
    (hfH : pyGetStr cs "homeTemperature" = .ok hT)
    (hfA : pyGetStr cs "awayTemperature" = .ok aT)
    (hfS : pyGetStr cs "sleepTemperature" = .ok sT)
    (hfC : pyGetStr cs "customTemperature" = .ok cT)
    (hfM : pyGetStr cs "mode" = .ok m)
    (hfO : pyGetStr cs "option" = .ok o)
    (hm : pyEqStr m "manual" = true)
    (ho : pyEqStr o "custom" = true)
    (hct : pyEqInt cT X = true) :
    setTemperature c now X ms w = (.ok true, ms1, w2) := by
  simp [setTemperature, hHome, hRead, hfH, hfA, hfS, hfC, hfM, hfO, hm, ho, hct]

/-- Device state fixture: manual/custom with custom temperature 22. -/
def csCustom22 : JVal := .jobj
  [("homeTemperature", .jnum 20), ("awayTemperature", .jnum 15),
   ("sleepTemperature", .jnum 18), ("customTemperature", .jnum 22),
   ("mode", .jstr "manual"), ("option", .jstr "custom")]

def wC5 : World :=
  authedWorld (some 0) (netOf [respOneEndpoint, respDevice csCustom22])

def w1C5 : World := (getHomeId c0 0 ms0 wC5).2.2

def w2C5 : World := (async_get_endpoint c0 0 (.jstr "home123") w1C5).2

/-- C5 witness: state manual/custom/22, target 22: success, final world is
the post-read world (the oracle would answer any further attempt, and none
occurs). -/
theorem C5_setTemperature_idempotent_witness :
    setTemperature c0 0 22 ms0 wC5 = (.ok true, ms0, w2C5) :=
  C5_setTemperature_idempotent c0 0 22 ms0 ms0 wC5 w1C5 w2C5 (.jstr "home123")
    csCustom22 (.jnum 20) (.jnum 15) (.jnum 18) (.jnum 22) (.jstr "manual")
    (.jstr "custom") rfl rfl rfl rfl rfl rfl rfl rfl rfl rfl rfl

/-- C9: no-op detection for the mode operations.  turnOff on a
`manual`/`frozen` state and enableSchedule on a `schedule` state return
success with the final world exactly the post-read world (zero mutating
calls); in every other readable state the operation's result and final
world are exactly those of the corresponding single set-mode call
(`async_disable` resp. `async_enable_schedule`). -/
theorem C9_mode_noop_detection :
    (∀ (c : Creds) (now : Int) (ms ms1 : MgrState) (w w1 w2 : World) (hid cs m o : JVal),
      getHomeId c now ms w = (.ok (some hid), ms1, w1) →
      async_get_endpoint c now hid w1 = (some cs, w2) →
      pyGetStr cs "mode" = .ok m → pyGetStr cs "option" = .ok o →
      pyEqStr m "manual" = true → pyEqStr o "frozen" = true →
      turnOff c now ms w = (.ok true, ms1, w2)) ∧
    (∀ (c : Creds) (now : Int) (ms ms1 : MgrState) (w w1 w2 : World) (hid cs m o : JVal),
      getHomeId c now ms w = (.ok (some hid), ms1, w1) →
      async_get_endpoint c now hid w1 = (some cs, w2) →
      pyGetStr cs "mode" = .ok m → pyGetStr cs "option" = .ok o →
      (pyEqStr m "manual" && pyEqStr o "frozen") = false →
      turnOff c now ms w =
        (.ok (async_disable c now hid w2).1, ms1, (async_disable c now hid w2).2)) ∧
    (∀ (c : Creds) (now : Int) (ms ms1 : MgrState) (w w1 w2 : World) (hid cs m : JVal),
      getHomeId c now ms w = (.ok (some hid), ms1, w1) →
      async_get_endpoint c now hid w1 = (some cs, w2) →
      pyGetStr cs "mode" = .ok m →
      pyEqStr m "schedule" = true →
      enableSchedule c now ms w = (.ok true, ms1, w2)) ∧
    (∀ (c : Creds) (now : Int) (ms ms1 : MgrState) (w w1 w2 : World) (hid cs m : JVal),
      getHomeId c now ms w = (.ok (some hid), ms1, w1) →
      async_get_endpoint c now hid w1 = (some cs, w2) →
      pyGetStr cs "mode" = .ok m →
      pyEqStr m "schedule" = false →
      enableSchedule c now ms w =
        (.ok (async_enable_schedule c now hid w2).1, ms1,
          (async_enable_schedule c now hid w2).2)) := by
  refine ⟨?_, ?_, ?_, ?_⟩
  · intro c now ms ms1 w w1 w2 hid cs m o hHome hRead hfM hfO hm ho
    simp [turnOff, hHome, hRead, hfM, hfO, hm, ho]
  · intro c now ms ms1 w w1 w2 hid cs m o hHome hRead hfM hfO hNot
    rcases hd : async_disable c now hid w2 with ⟨b, w3⟩
    simp [turnOff, hHome, hRead, hfM, hfO, hNot, hd]
  · intro c now ms ms1 w w1 w2 hid cs m hHome hRead hfM hm
    simp [enableSchedule, hHome, hRead, hfM, hm]
  · intro c now ms ms1 w w1 w2 hid cs m hHome hRead hfM hm
    rcases hd : async_enable_schedule c now hid w2 with ⟨b, w3⟩
    simp [enableSchedule, hHome, hRead, hfM, hm, hd]

/-- Device state fixture: manual/frozen (device off). -/
def csFrozen : JVal := .jobj [("mode", .jstr "manual"), ("option", .jstr "frozen")]

/-- Device state fixture: schedule mode (mode/option fields only). -/
def csSchedMode : JVal := .jobj [("mode", .jstr "schedule"), ("option", .jstr "custom")]

def wOff1 : World := authedWorld (some 0) (netOf [respOneEndpoint, respDevice csFrozen])

def wOff1b : World :=
  (async_get_endpoint c0 0 (.jstr "home123") (getHomeId c0 0 ms0 wOff1).2.2).2

def wOff2 : World :=
  authedWorld (some 0) (netOf [respOneEndpoint, respDevice csSchedMode, respOkEmpty])

def wOff2b : World :=
  (async_get_endpoint c0 0 (.jstr "home123") (getHomeId c0 0 ms0 wOff2).2.2).2

def wSch1 : World := authedWorld (some 0) (netOf [respOneEndpoint, respDevice csSchedMode])

def wSch1b : World :=
  (async_get_endpoint c0 0 (.jstr "home123") (getHomeId c0 0 ms0 wSch1).2.2).2

def wSch2 : World :=
  authedWorld (some 0) (netOf [respOneEndpoint, respDevice csFrozen, respOkEmpty])

def wSch2b : World :=
  (async_get_endpoint c0 0 (.jstr "home123") (getHomeId c0 0 ms0 wSch2).2.2).2

/-- C9 witness: the four cases at concrete device states. -/
theorem C9_mode_noop_detection_witness :
    turnOff c0 0 ms0 wOff1 = (.ok true, ms0, wOff1b) ∧
    turnOff c0 0 ms0 wOff2 =
      (.ok (async_disable c0 0 (.jstr "home123") wOff2b).1, ms0,
        (async_disable c0 0 (.jstr "home123") wOff2b).2) ∧
    enableSchedule c0 0 ms0 wSch1 = (.ok true, ms0, wSch1b) ∧
    enableSchedule c0 0 ms0 wSch2 =
      (.ok (async_enable_schedule c0 0 (.jstr "home123") wSch2b).1, ms0,
        (async_enable_schedule c0 0 (.jstr "home123") wSch2b).2) :=
  ⟨C9_mode_noop_detection.1 c0 0 ms0 ms0 wOff1 (getHomeId c0 0 ms0 wOff1).2.2 wOff1b
      (.jstr "home123") csFrozen (.jstr "manual") (.jstr "frozen")
      rfl rfl rfl rfl rfl rfl,
   C9_mode_noop_detection.2.1 c0 0 ms0 ms0 wOff2 (getHomeId c0 0 ms0 wOff2).2.2 wOff2b
      (.jstr "home123") csSchedMode (.jstr "schedule") (.jstr "custom")
      rfl rfl rfl rfl rfl,
   C9_mode_noop_detection.2.2.1 c0 0 ms0 ms0 wSch1 (getHomeId c0 0 ms0 wSch1).2.2 wSch1b
      (.jstr "home123") csSchedMode (.jstr "schedule")
      rfl rfl rfl rfl,
   C9_mode_noop_detection.2.2.2 c0 0 ms0 ms0 wSch2 (getHomeId c0 0 ms0 wSch2).2.2 wSch2b
      (.jstr "home123") csFrozen (.jstr "manual")
      rfl rfl rfl rfl⟩

/-- C6: token freshness.  With a recorded last-successful-call time `t`: if
`now - t ≤ 60` minutes, `connectionStatus` returns true with the world
untouched (no login and no network call); if `now - t > 60`, or no time was
ever recorded, it runs exactly one login and returns that login's result
(the run equals the login run). -/
theorem C6_connection_status_token_freshness :
    (∀ (c : Creds) (now t : Int) (w : World),
      w.st.lastSuccessfulCall = some t → now - t ≤ 60 →
      async_connection_status c now w = (true, w)) ∧
    (∀ (c : Creds) (now t : Int) (w : World),
      w.st.lastSuccessfulCall = some t → now - t > 60 →
      async_connection_status c now w = async_login c now w) ∧
    (∀ (c : Creds) (now : Int) (w : World),
      w.st.lastSuccessfulCall = none →
      async_connection_status c now w = async_login c now w) := by
  refine ⟨?_, ?_, ?_⟩
  · intro c now t w h1 h2
    have hto : ¬(now - t > LOGIN_TIMEOUT_DELTA) := by
      simp only [LOGIN_TIMEOUT_DELTA]; omega
    simp [async_connection_status, is_login_timed_out, h1, hto]
  · intro c now t w h1 h2
    have hto : now - t > LOGIN_TIMEOUT_DELTA := by
      simp only [LOGIN_TIMEOUT_DELTA]; omega
    rcases hl : async_login c now w with ⟨b, w'⟩
    cases b <;> simp [async_connection_status, is_login_timed_out, h1, hto, hl]
  · intro c now w h1
    rcases hl : async_login c now w with ⟨b, w'⟩
    cases b <;> simp [async_connection_status, is_login_timed_out, h1, hl]

def wFresh60 : World := authedWorld (some 0) (netOf [])

def wStale : World := freshWorld (netOf [respLogin])

/-- C6 witness: at `now = 60` (exactly the window) no login happens; at
`now = 61`, and on a world with no recorded call, the run is the login
run. -/
theorem C6_connection_status_token_freshness_witness :
    async_connection_status c0 60 wFresh60 = (true, wFresh60) ∧
    async_connection_status c0 61 wFresh60 = async_login c0 61 wFresh60 ∧
    async_connection_status c0 0 wStale = async_login c0 0 wStale :=
  ⟨C6_connection_status_token_freshness.1 c0 60 0 wFresh60 rfl (by decide),
   C6_connection_status_token_freshness.2.1 c0 61 0 wFresh60 rfl (by decide),
   C6_connection_status_token_freshness.2.2 c0 0 wStale rfl⟩

/-- The spec's success predicate, from its words: HTTP status is exactly
200 and the decoded body contains a field `ok` equal to 1 (Python `==`,
under which `True == 1`). -/
def successPredicateSpec (status : Nat) (body : Option Dict) : Bool :=
  status == 200 &&
    match body with
    | some data =>
      match data.lookup "ok" with
      | some v => pyEqInt v 1
      | none => false
    | none => false

/-- C7: a response is accepted (non-none data returned) iff it satisfies
the spec's success predicate, and the accepted data is the decoded body;
the last-successful-call timestamp is set to `now` on exactly the accepted
responses and is untouched otherwise (the token is never touched here). -/
theorem C7_success_predicate :
    ∀ (now : Int) (status : Nat) (body : Option Dict) (st : ApiState) (d : Dict),
      ((async_get_response_if_success now status body st).1 = .ok (some d) ↔
        (successPredicateSpec status body = true ∧ body = some d)) ∧
      (async_get_response_if_success now status body st).2.lastSuccessfulCall =
        (if successPredicateSpec status body then some now else st.lastSuccessfulCall) ∧
      (async_get_response_if_success now status body st).2.authToken = st.authToken := by
  intro now status body st d
  by_cases hs : status = 200 <;>
    cases body with
    | none => simp [async_get_response_if_success, successPredicateSpec, hs]
    | some data =>
      cases hok : data.lookup "ok" with
      | none => simp [async_get_response_if_success, successPredicateSpec, hs, hok]
      | some v =>
        cases hv : pyEqInt v 1 <;>
          simp [async_get_response_if_success, successPredicateSpec, hs, hok, hv]

/-- C8 counterexample: the claim that a stale token forces a login before
any authenticated call fails on the code.  With a held token whose last
successful call is 120 minutes old (stale by the 60-minute rule), an
authenticated POST proceeds directly: exactly one wire request is sent, it
is not a login, and a non-none result is returned. -/
theorem C8_stale_token_no_relogin_counterexample :
    is_login_timed_out 120 (authedWorld (some 0) (netOf [respOkEmpty])).st = true ∧
    (async_post c0 120 "/api/endpoints/setMode" setModePayload true
        (authedWorld (some 0) (netOf [respOkEmpty]))).1.isSome = true ∧
    (async_post c0 120 "/api/endpoints/setMode" setModePayload true
        (authedWorld (some 0) (netOf [respOkEmpty]))).2.log.filter isLoginReq = [] ∧
    (async_post c0 120 "/api/endpoints/setMode" setModePayload true
        (authedWorld (some 0) (netOf [respOkEmpty]))).2.log.length = 1 := by
  exact ⟨rfl, rfl, rfl, rfl⟩

/-- C8 amended: an authenticated GET or POST checks only token presence,
not staleness.  When a token is held the request proceeds with no login
step regardless of elapsed time; when no token is held, a login runs first,
the in-flight operation returns none (at the post-login world) if that
login fails, and proceeds from the post-login world if it succeeds. -/
theorem C8_auth_checks_token_presence_only :
    (∀ (c : Creds) (now : Int) (ep : String) (p : JVal) (r : Bool) (w : World),
      has_auth w.st = true →
      async_post c now ep p r w = async_post_without_auth now ep p r w) ∧
    (∀ (c : Creds) (now : Int) (ep : String) (p : JVal) (r : Bool) (w w' : World),
      has_auth w.st = false → async_login c now w = (false, w') →
      async_post c now ep p r w = (none, w')) ∧
    (∀ (c : Creds) (now : Int) (ep : String) (p : JVal) (r : Bool) (w w' : World),
      has_auth w.st = false → async_login c now w = (true, w') →
      async_post c now ep p r w = async_post_without_auth now ep p r w') ∧
    (∀ (c : Creds) (now : Int) (ep : String) (r : Bool) (w : World),
      has_auth w.st = true →
      async_get c now ep r w = async_get_without_auth now ep r w) ∧
    (∀ (c : Creds) (now : Int) (ep : String) (r : Bool) (w w' : World),
      has_auth w.st = false → async_login c now w = (false, w') →
      async_get c now ep r w = (none, w')) ∧
    (∀ (c : Creds) (now : Int) (ep : String) (r : Bool) (w w' : World),
      has_auth w.st = false → async_login c now w = (true, w') →
      async_get c now ep r w = async_get_without_auth now ep r w') := by
  refine ⟨?_, ?_, ?_, ?_, ?_, ?_⟩
  · intro c now ep p r w h; simp [async_post, h]
  · intro c now ep p r w w' h hl; simp [async_post, h, hl]
  · intro c now ep p r w w' h hl; simp [async_post, h, hl]
  · intro c now ep r w h; simp [async_get, h]
  · intro c now ep r w w' h hl; simp [async_get, h, hl]
  · intro c now ep r w w' h hl; simp [async_get, h, hl]

def wNoTokFail : World := freshWorld (netOf [])

def wNoTokOk : World := freshWorld (netOf [respLogin, respOkEmpty])

/-- C8 amended witness: the six cases at concrete worlds (held token and
stale time; no token with failing login; no token with succeeding login). -/
theorem C8_auth_checks_token_presence_only_witness :
    async_post c0 120 "/api/endpoints/setMode" setModePayload true
        (authedWorld (some 0) (netOf [respOkEmpty]))
      = async_post_without_auth 120 "/api/endpoints/setMode" setModePayload true
        (authedWorld (some 0) (netOf [respOkEmpty])) ∧
    async_post c0 0 "/api/endpoints/setMode" setModePayload true wNoTokFail
      = (none, (async_login c0 0 wNoTokFail).2) ∧
    async_post c0 0 "/api/endpoints/setMode" setModePayload true wNoTokOk
      = async_post_without_auth 0 "/api/endpoints/setMode" setModePayload true
        (async_login c0 0 wNoTokOk).2 ∧
    async_get c0 120 "/api/endpoints/getEndpoints" true
        (authedWorld (some 0) (netOf [respOkEmpty]))
      = async_get_without_auth 120 "/api/endpoints/getEndpoints" true
        (authedWorld (some 0) (netOf [respOkEmpty])) ∧
    async_get c0 0 "/api/endpoints/getEndpoints" true wNoTokFail
      = (none, (async_login c0 0 wNoTokFail).2) ∧
    async_get c0 0 "/api/endpoints/getEndpoints" true wNoTokOk
      = async_get_without_auth 0 "/api/endpoints/getEndpoints" true
        (async_login c0 0 wNoTokOk).2 :=
  ⟨C8_auth_checks_token_presence_only.1 c0 120 "/api/endpoints/setMode"
      setModePayload true (authedWorld (some 0) (netOf [respOkEmpty])) rfl,
   C8_auth_checks_token_presence_only.2.1 c0 0 "/api/endpoints/setMode"
      setModePayload true wNoTokFail (async_login c0 0 wNoTokFail).2 rfl rfl,
   C8_auth_checks_token_presence_only.2.2.1 c0 0 "/api/endpoints/setMode"
      setModePayload true wNoTokOk (async_login c0 0 wNoTokOk).2 rfl rfl,
   C8_auth_checks_token_presence_only.2.2.2.1 c0 120 "/api/endpoints/getEndpoints"
      true (authedWorld (some 0) (netOf [respOkEmpty])) rfl,
   C8_auth_checks_token_presence_only.2.2.2.2.1 c0 0 "/api/endpoints/getEndpoints"
      true wNoTokFail (async_login c0 0 wNoTokFail).2 rfl rfl,
   C8_auth_checks_token_presence_only.2.2.2.2.2 c0 0 "/api/endpoints/getEndpoints"
      true wNoTokOk (async_login c0 0 wNoTokOk).2 rfl rfl⟩

/-- C10: a login response with status 200 and `ok = 1` but no `authToken`
field makes `login` return failure with the token cleared, yet the
last-successful-call timestamp is still set to `now`; consequently any
`connectionStatus` within the next 60 minutes returns true with no login
attempt (world untouched), although no token is held. -/
theorem C10_ok_login_without_token (c : Creds) (now : Int) (w : World)
    (d : Dict) (v : JVal)
    (hnet : w.net w.tick = .resp 200 (some d))
    (hok : d.lookup "ok" = some v)
    (hv : pyEqInt v 1 = true)
    (hnoTok : d.lookup "authToken" = none) :
    (async_login c now w).1 = false ∧
    (async_login c now w).2.st.authToken = none ∧
    (async_login c now w).2.st.lastSuccessfulCall = some now ∧
    ∀ now2 : Int, now2 - now ≤ 60 →
      async_connection_status c now2 (async_login c now w).2 =
        (true, (async_login c now w).2) := by
  have hrun : async_login c now w =
      (false, setSt
        (setSt { logReq w ⟨.post, "/api/users/login",
            some (dumps (.jobj [("email", .jstr c.username), ("password", .jstr c.password)]))⟩
          with tick := w.tick + 1 }
          { w.st with lastSuccessfulCall := some now })
        { w.st with lastSuccessfulCall := some now, authToken := none }) := by
    simp [async_login, async_post_without_auth, logReq, takeOutcome, hnet,
      async_get_response_if_success, hok, hv, hnoTok, setSt]
  refine ⟨by simp [hrun], by simp [hrun, setSt], by simp [hrun, setSt], ?_⟩
  intro now2 hle
  have hto : ¬(now2 - now > LOGIN_TIMEOUT_DELTA) := by
    simp only [LOGIN_TIMEOUT_DELTA]; omega
  simp [hrun, async_connection_status, is_login_timed_out, setSt, hto]

def dOkNoToken : Dict := [("ok", .jnum 1)]

def wC10 : World := freshWorld (netOf [.resp 200 (some dOkNoToken)])

/-- C10 witness: the scenario at a concrete world, probing
`connectionStatus` 60 minutes later. -/
theorem C10_ok_login_without_token_witness :
    (async_login c0 0 wC10).1 = false ∧
    (async_login c0 0 wC10).2.st.authToken = none ∧
    (async_login c0 0 wC10).2.st.lastSuccessfulCall = some 0 ∧
    async_connection_status c0 60 (async_login c0 0 wC10).2 =
      (true, (async_login c0 0 wC10).2) :=
  ⟨(C10_ok_login_without_token c0 0 wC10 dOkNoToken (.jnum 1) rfl rfl rfl rfl).1,
   (C10_ok_login_without_token c0 0 wC10 dOkNoToken (.jnum 1) rfl rfl rfl rfl).2.1,
   (C10_ok_login_without_token c0 0 wC10 dOkNoToken (.jnum 1) rfl rfl rfl rfl).2.2.1,
   (C10_ok_login_without_token c0 0 wC10 dOkNoToken (.jnum 1) rfl rfl rfl rfl).2.2.2
      60 (by decide)⟩

end Cosa
